import Mathlib

/-!
# libgstc: the gstd client library

A shallow embedding of `libgstc/libgstc.c`.

* A C pointer that may be `NULL` is an `Option`; `const char *` is `Option String`.
* `GstcStatus`, `int`, `long` and `long long` are `Int`: the code copies these values and
  never computes with them, so no overflow can occur.
* The transport (`gstc_socket_send`), the response decoder (`gstc_json_get_int`) and the
  failure constants live in headers that are not part of the sources; they are the fields
  of `Env`, so every theorem holds for every transport, every decoder and every value of
  those constants.  The success constant, the checking macro and `gstc_thread_new` are
  missing as well and are modelled from the spec.
* Effects are explicit: every operation takes a `World` and returns the new one.  The world
  carries the transport's own state, an append-only trace of the observable events, the
  workers created but not yet run, and the `waiting` flag of each `GstcSyncBusData`.
* `asprintf` is string concatenation (allocation is assumed to succeed, as the code does).
* In `gstc_client_new` the outcome of `malloc` and the transport constructor
  `gstc_socket_new` (also declared outside the sources) are parameters.
* Threads are run one at a time: a worker created by `gstc_thread_new` stays pending until
  it is run to completion, either explicitly (`gstc_bus_thread`, `run_worker`) or while
  `gstc_pipeline_bus_wait` is suspended on its condition variable.
-/

namespace Libgstc

/-- The status type of the library, a C enum: a signed integer. -/
abbrev GstcStatus := Int

/-- Modelled from the spec: the success constant of `libgstc.h` (a header that is not among
the sources).  "Value `0` means success." -/
def GSTC_OK : GstcStatus := 0

/-- An opaque transport connection (`GstcSocket`, declared in `libgstc_socket.h`). -/
structure GstcSocket where
  handle : Nat
deriving DecidableEq, Repr

/-- The C `struct _GstClient`. -/
structure GstClient where
  socket : GstcSocket
deriving DecidableEq, Repr

/-- A `GstcPipelineBusWaitCallback` function pointer: either a function of the caller
(opaque, identified by a number) or the library's own `gstc_pipeline_bus_wait_callback`. -/
inductive GstcPipelineBusWaitCallback where
  | user (fn : Nat)
  | gstc_pipeline_bus_wait_callback
deriving DecidableEq, Repr

/-- The C `struct _GstcThreadData`; `user_data` is a `void *`, kept as an address. -/
structure GstcThreadData where
  client : Option GstClient
  pipeline_name : Option String
  message : Option String
  func : GstcPipelineBusWaitCallback
  user_data : Nat
  timeout : Int
deriving DecidableEq, Repr

/-- The observable events, in the order in which they happen. -/
inductive Event where
  /-- A call of `gstc_socket_send (socket, request, &response)`. -/
  | send (socket : GstcSocket) (request : String)
  /-- A call of `gstc_json_get_int (response, name, code)`. -/
  | decode (response : String) (name : String)
  /-- A call of `free (response)` in `gstc_cmd_send`. -/
  | free (response : Option String)
  /-- A call of `gstc_thread_new (gstc_bus_thread, data, &thread)`. -/
  | spawn (data : GstcThreadData)
  /-- A call of the callback `func` with these five arguments. -/
  | callback (func : GstcPipelineBusWaitCallback) (client : Option GstClient)
      (pipeline_name : Option String) (message_name : Option String) (timeout : Int)
      (user_data : Nat)
  /-- A call of `malloc (sizeof (GstClient))`; `ok` tells whether a block was returned. -/
  | malloc_client (ok : Bool)
  /-- A call of `gstc_socket_new (address, port, wait_time, keep_connection_open, &socket)`. -/
  | socket_new (address : String) (port : Nat) (wait_time : Nat) (keep_connection_open : Int)
  /-- A call of `free (client)` on the block that holds `client`. -/
  | free_client (client : GstClient)
deriving DecidableEq, Repr

/-- The state outside the library. -/
structure World (σ : Type) where
  /-- State of the transport collaborator. -/
  sock : σ
  /-- Events so far, oldest first. -/
  trace : List Event
  /-- Workers handed to `gstc_thread_new` that have not run yet, oldest first. -/
  threads : List GstcThreadData
  /-- The `waiting` field of the `GstcSyncBusData` stored at each address. -/
  waiting : Nat → Int

/-- The collaborators and constants declared in headers outside the sources. -/
structure Env (σ : Type) where
  /-- Constant `GSTC_NULL_ARGUMENT` of `libgstc.h`. -/
  GSTC_NULL_ARGUMENT : GstcStatus
  /-- Constant `GSTC_NOT_FOUND` of `libgstc.h`. -/
  GSTC_NOT_FOUND : GstcStatus
  /-- Constant `GSTC_OOM` of `libgstc.h`. -/
  GSTC_OOM : GstcStatus
  /-- Function `gstc_socket_send (socket, request, &response)`: the status, the value left in
  `response` (it is `NULL` before the call) and the transport's new state. -/
  gstc_socket_send : GstcSocket → String → σ → GstcStatus × Option String × σ
  /-- Function `gstc_json_get_int (json, name, out)`: the status and the value left in `*out`,
  given the value `*out` had before. -/
  gstc_json_get_int : String → String → Int → GstcStatus × Int

/-- Rendering of a `%s` conversion.  A `NULL` argument is rendered `(null)` as glibc does;
no statement below is about the text rendered in that case. -/
def fmt_s : Option String → String
  | some s => s
  | none => "(null)"

/-- Rendering of a `%lli` conversion: optional minus sign, then decimal digits. -/
def fmt_lli (n : Int) : String :=
  toString n

/-- Appends one event to the trace. -/
def World.log {σ : Type} (w : World σ) (e : Event) : World σ :=
  { w with trace := w.trace ++ [e] }

/-- The requests handed to the transport, with the socket they were sent on. -/
def sends : List Event → List (GstcSocket × String)
  | [] => []
  | Event.send s r :: es => (s, r) :: sends es
  | _ :: es => sends es

/-- The responses handed to the decoder. -/
def decodes : List Event → List String
  | [] => []
  | Event.decode r _ :: es => r :: decodes es
  | _ :: es => decodes es

/-- The callback invocations. -/
def callbacks : List Event → List Event
  | [] => []
  | Event.callback f c p m t u :: es => Event.callback f c p m t u :: callbacks es
  | _ :: es => callbacks es

variable {σ : Type}

/-- Modelled from the spec: the macro `gstc_assert_and_ret_val (NULL != ptr, val)` of
`libgstc_assert.h`, a header that is not among the sources.  When the pointer is `NULL`
the enclosing function returns `val` at once ("failing fast with `NullArgument`");
otherwise the function goes on, with the pointee at hand. -/
def gstc_assert_and_ret_val {α β : Type} (ptr : Option α) (val : β) (rest : α → β) : β :=
  match ptr with
  | none => val
  | some a => rest a

/-- Function `gstc_response_get_code`.  Here `code` is the pointee of the `int *code`
argument (`none` for a `NULL` pointer); the second component of the result is the pointee
afterwards. -/
def gstc_response_get_code (env : Env σ) (response : Option String) (code : Option Int)
    (w : World σ) : (GstcStatus × Option Int) × World σ :=
  let code_field_name := "code"
  gstc_assert_and_ret_val response ((env.GSTC_NULL_ARGUMENT, code), w) fun resp =>
  gstc_assert_and_ret_val code ((env.GSTC_NULL_ARGUMENT, code), w) fun c =>
  let r := env.gstc_json_get_int resp code_field_name c
  ((r.1, some r.2), w.log (Event.decode resp code_field_name))

/-- Function `gstc_cmd_send`. -/
def gstc_cmd_send (env : Env σ) (client : Option GstClient) (request : Option String)
    (w : World σ) : GstcStatus × World σ :=
  let code : Int := env.GSTC_NOT_FOUND
  gstc_assert_and_ret_val client (env.GSTC_NULL_ARGUMENT, w) fun cl =>
  gstc_assert_and_ret_val request (env.GSTC_NULL_ARGUMENT, w) fun req =>
  let r := env.gstc_socket_send cl.socket req w.sock
  let ret := r.1
  let response := r.2.1
  let w1 := ({ w with sock := r.2.2 }).log (Event.send cl.socket req)
  if GSTC_OK ≠ ret then
    (ret, w1)
  else
    let d := gstc_response_get_code env response (some code) w1
    let ret := d.1.1
    let w2 := d.2
    if GSTC_OK ≠ ret then
      (ret, w2.log (Event.free response))
    else
      (d.1.2.getD code, w2.log (Event.free response))

/-- Function `gstc_cmd_create`. -/
def gstc_cmd_create (env : Env σ) (client : Option GstClient) (where_ what : Option String)
    (w : World σ) : GstcStatus × World σ :=
  gstc_assert_and_ret_val client (env.GSTC_NULL_ARGUMENT, w) fun cl =>
  gstc_assert_and_ret_val where_ (env.GSTC_NULL_ARGUMENT, w) fun wh =>
  gstc_assert_and_ret_val what (env.GSTC_NULL_ARGUMENT, w) fun wt =>
  let request := "create " ++ wh ++ " " ++ wt
  gstc_cmd_send env (some cl) (some request) w

/-- Function `gstc_cmd_read`. -/
def gstc_cmd_read (env : Env σ) (client : Option GstClient) (what : Option String)
    (w : World σ) : GstcStatus × World σ :=
  gstc_assert_and_ret_val client (env.GSTC_NULL_ARGUMENT, w) fun cl =>
  gstc_assert_and_ret_val what (env.GSTC_NULL_ARGUMENT, w) fun wt =>
  let request := "read " ++ wt
  gstc_cmd_send env (some cl) (some request) w

/-- Function `gstc_cmd_update`. -/
def gstc_cmd_update (env : Env σ) (client : Option GstClient) (what how : Option String)
    (w : World σ) : GstcStatus × World σ :=
  gstc_assert_and_ret_val client (env.GSTC_NULL_ARGUMENT, w) fun cl =>
  gstc_assert_and_ret_val what (env.GSTC_NULL_ARGUMENT, w) fun wt =>
  gstc_assert_and_ret_val how (env.GSTC_NULL_ARGUMENT, w) fun hw =>
  let request := "update " ++ wt ++ " " ++ hw
  gstc_cmd_send env (some cl) (some request) w

/-- Function `gstc_cmd_delete`. -/
def gstc_cmd_delete (env : Env σ) (client : Option GstClient) (where_ what : Option String)
    (w : World σ) : GstcStatus × World σ :=
  gstc_assert_and_ret_val client (env.GSTC_NULL_ARGUMENT, w) fun cl =>
  gstc_assert_and_ret_val where_ (env.GSTC_NULL_ARGUMENT, w) fun wh =>
  gstc_assert_and_ret_val what (env.GSTC_NULL_ARGUMENT, w) fun wt =>
  let request := "delete " ++ wh ++ " " ++ wt
  gstc_cmd_send env (some cl) (some request) w

/-- Function `gstc_pipeline_create`. -/
def gstc_pipeline_create (env : Env σ) (client : Option GstClient)
    (pipeline_name pipeline_desc : Option String) (w : World σ) : GstcStatus × World σ :=
  let resource := "/pipelines"
  gstc_assert_and_ret_val client (env.GSTC_NULL_ARGUMENT, w) fun cl =>
  gstc_assert_and_ret_val pipeline_name (env.GSTC_NULL_ARGUMENT, w) fun name =>
  gstc_assert_and_ret_val pipeline_desc (env.GSTC_NULL_ARGUMENT, w) fun desc =>
  let create_args := name ++ " " ++ desc
  gstc_cmd_create env (some cl) (some resource) (some create_args) w

/-- Function `gstc_pipeline_delete`. -/
def gstc_pipeline_delete (env : Env σ) (client : Option GstClient)
    (pipeline_name : Option String) (w : World σ) : GstcStatus × World σ :=
  let resource := "/pipelines"
  gstc_assert_and_ret_val client (env.GSTC_NULL_ARGUMENT, w) fun cl =>
  gstc_assert_and_ret_val pipeline_name (env.GSTC_NULL_ARGUMENT, w) fun name =>
  gstc_cmd_delete env (some cl) (some resource) (some name) w

/-- Function `gstc_cmd_change_state`. -/
def gstc_cmd_change_state (env : Env σ) (client : Option GstClient)
    (pipe state : Option String) (w : World σ) : GstcStatus × World σ :=
  gstc_assert_and_ret_val client (env.GSTC_NULL_ARGUMENT, w) fun cl =>
  gstc_assert_and_ret_val pipe (env.GSTC_NULL_ARGUMENT, w) fun p =>
  gstc_assert_and_ret_val state (env.GSTC_NULL_ARGUMENT, w) fun st =>
  let resource := "/pipelines/" ++ p ++ "/state"
  gstc_cmd_update env (some cl) (some resource) (some st) w

/-- Function `gstc_pipeline_play`. -/
def gstc_pipeline_play (env : Env σ) (client : Option GstClient)
    (pipeline_name : Option String) (w : World σ) : GstcStatus × World σ :=
  let state := "playing"
  gstc_assert_and_ret_val client (env.GSTC_NULL_ARGUMENT, w) fun cl =>
  gstc_assert_and_ret_val pipeline_name (env.GSTC_NULL_ARGUMENT, w) fun name =>
  gstc_cmd_change_state env (some cl) (some name) (some state) w

/-- Function `gstc_pipeline_pause`. -/
def gstc_pipeline_pause (env : Env σ) (client : Option GstClient)
    (pipeline_name : Option String) (w : World σ) : GstcStatus × World σ :=
  let state := "paused"
  gstc_assert_and_ret_val client (env.GSTC_NULL_ARGUMENT, w) fun cl =>
  gstc_assert_and_ret_val pipeline_name (env.GSTC_NULL_ARGUMENT, w) fun name =>
  gstc_cmd_change_state env (some cl) (some name) (some state) w

/-- Function `gstc_pipeline_stop`. -/
def gstc_pipeline_stop (env : Env σ) (client : Option GstClient)
    (pipeline_name : Option String) (w : World σ) : GstcStatus × World σ :=
  let state := "null"
  gstc_assert_and_ret_val client (env.GSTC_NULL_ARGUMENT, w) fun cl =>
  gstc_assert_and_ret_val pipeline_name (env.GSTC_NULL_ARGUMENT, w) fun name =>
  gstc_cmd_change_state env (some cl) (some name) (some state) w

/-- Function `gstc_client_ping`. -/
def gstc_client_ping (env : Env σ) (client : Option GstClient) (w : World σ) :
    GstcStatus × World σ :=
  let request := "read /"
  gstc_assert_and_ret_val client (env.GSTC_NULL_ARGUMENT, w) fun cl =>
  gstc_cmd_send env (some cl) (some request) w

/-- Function `gstc_element_set`.  Here `how` is the string that
`vasprintf (&how, format, ap)` produces from the format and the variadic arguments, the
value as already formatted.  There is no argument check in this function; the result of
`gstc_cmd_update` is dropped. -/
def gstc_element_set (env : Env σ) (client : Option GstClient)
    (pname element parameter : Option String) (how : String) (w : World σ) :
    GstcStatus × World σ :=
  let what := "/pipelines/" ++ fmt_s pname ++ "/elements/" ++ fmt_s element ++
    "/properties/" ++ fmt_s parameter
  let u := gstc_cmd_update env client (some what) (some how) w
  (GSTC_OK, u.2)

/-- Function `gstc_pipeline_inject_eos`.  There is no argument check in this function. -/
def gstc_pipeline_inject_eos (env : Env σ) (client : Option GstClient)
    (pipeline_name : Option String) (w : World σ) : GstcStatus × World σ :=
  let what := "eos"
  let where_ := "/pipelines/" ++ fmt_s pipeline_name ++ "/event"
  gstc_cmd_create env client (some where_) (some what) w

/-- Function `gstc_pipeline_bus_wait_callback`: under the mutex, clears the `waiting` flag of the
`GstcSyncBusData` that `user_data` points to (and signals its condition variable). -/
def gstc_pipeline_bus_wait_callback (_client : Option GstClient)
    (_pipeline_name _message_name : Option String) (_timeout : Int) (user_data : Nat)
    (w : World σ) : GstcStatus × World σ :=
  (GSTC_OK, { w with waiting := fun a => if a = user_data then 0 else w.waiting a })

/-- A call through a `GstcPipelineBusWaitCallback` pointer.  The call is recorded in the
trace; the body of a caller's function is outside the library, the library's own callback
is run. -/
def call_callback (func : GstcPipelineBusWaitCallback) (client : Option GstClient)
    (pipeline_name message_name : Option String) (timeout : Int) (user_data : Nat)
    (w : World σ) : World σ :=
  let w1 := w.log (Event.callback func client pipeline_name message_name timeout user_data)
  match func with
  | GstcPipelineBusWaitCallback.user _ => w1
  | GstcPipelineBusWaitCallback.gstc_pipeline_bus_wait_callback =>
    (gstc_pipeline_bus_wait_callback client pipeline_name message_name timeout user_data w1).2

/-- Function `gstc_bus_thread`, the body of a worker, run to completion. -/
def gstc_bus_thread (env : Env σ) (data : GstcThreadData) (w : World σ) : World σ :=
  let pipeline_name := data.pipeline_name
  let message_name := data.message
  let timeout := data.timeout
  let client := data.client
  let where_ := "/pipelines/" ++ fmt_s pipeline_name ++ "/bus/message"
  let r := gstc_cmd_read env client (some where_) w
  call_callback data.func client pipeline_name message_name timeout data.user_data r.2

/-- Modelled from the spec: `gstc_thread_new` of `libgstc_thread.h`, which is not among the
sources.  "A background worker is created, handed an event-wait task descriptor";
the creating call "does not wait for the worker to start running". -/
def gstc_thread_new (data : GstcThreadData) (w : World σ) : GstcStatus × World σ :=
  (GSTC_OK, { w.log (Event.spawn data) with threads := w.threads ++ [data] })

/-- Function `gstc_pipeline_bus_wait_async`.  There is no argument check in this function; the
results of both `gstc_cmd_update` calls and of `gstc_thread_new` are dropped. -/
def gstc_pipeline_bus_wait_async (env : Env σ) (client : Option GstClient)
    (pipeline_name message_name : Option String) (timeout : Int)
    (callback : GstcPipelineBusWaitCallback) (user_data : Nat) (w : World σ) :
    GstcStatus × World σ :=
  let what_timeout := "timeout"
  let what_types := "types"
  let where_timeout := "/pipelines/" ++ fmt_s pipeline_name ++ "/bus/" ++ what_timeout
  let how_timeout := fmt_lli timeout
  let where_types := "/pipelines/" ++ fmt_s pipeline_name ++ "/bus/" ++ what_types
  let u1 := gstc_cmd_update env client (some where_types) message_name w
  let u2 := gstc_cmd_update env client (some where_timeout) (some how_timeout) u1.2
  let data : GstcThreadData :=
    { client := client, pipeline_name := pipeline_name, message := message_name,
      func := callback, user_data := user_data, timeout := timeout }
  let t := gstc_thread_new data u2.2
  (GSTC_OK, t.2)

/-- Runs the oldest worker that has not run yet to completion, if there is one. -/
def run_worker (env : Env σ) (w : World σ) : Option (World σ) :=
  match w.threads with
  | [] => none
  | data :: rest => some (gstc_bus_thread env data { w with threads := rest })

/-- The loop `while (1 == data.waiting) pthread_cond_wait (...)` of
`gstc_pipeline_bus_wait`, for the `GstcSyncBusData` at address `addr`.  While the caller is
suspended in `pthread_cond_wait` the oldest pending worker runs to completion; with nobody
left to signal the condition the caller stays blocked (`none`).  `fuel` bounds the number
of iterations. -/
def bus_wait_loop (env : Env σ) (addr : Nat) : Nat → World σ → Option (World σ)
  | 0, _ => none
  | fuel + 1, w =>
    if w.waiting addr = 1 then
      match run_worker env w with
      | none => none
      | some w1 => bus_wait_loop env addr fuel w1
    else
      some w

/-- Function `gstc_pipeline_bus_wait`.  Here `addr` is the address of the local `data`. -/
def gstc_pipeline_bus_wait (env : Env σ) (fuel : Nat) (addr : Nat)
    (client : Option GstClient) (pipeline_name message_name : Option String)
    (timeout : Int) (w : World σ) : Option (GstcStatus × World σ) :=
  let w0 : World σ := { w with waiting := fun a => if a = addr then 1 else w.waiting a }
  let r := gstc_pipeline_bus_wait_async env client pipeline_name message_name timeout
    GstcPipelineBusWaitCallback.gstc_pipeline_bus_wait_callback addr w0
  let ret := r.1
  match bus_wait_loop env addr fuel r.2 with
  | none => none
  | some w1 => some (ret, w1)

/-- A transport in the manner of the mock of the test suite: it keeps the requests it was
given in its state, reports `status` and leaves `response` in the response pointer. -/
def mockSend (status : GstcStatus) (response : Option String) :
    GstcSocket → String → List String → GstcStatus × Option String × List String :=
  fun _ request st => (status, response, st ++ [request])

/-- A decoder that reports `status` and stores `code` when `status` is `GSTC_OK`
(leaving the output untouched otherwise). -/
def mockDecode (status : GstcStatus) (code : Int) :
    String → String → Int → GstcStatus × Int :=
  fun _ _ old => (status, if status = GSTC_OK then code else old)

/-- An environment for concrete evaluation: the status constants carry the values of the
upstream header, the transport and the decoder are the mocks above. -/
def mockEnv (sendStatus : GstcStatus) (response : Option String) (decodeStatus : GstcStatus)
    (code : Int) : Env (List String) :=
  { GSTC_NULL_ARGUMENT := -1
    GSTC_NOT_FOUND := -7
    GSTC_OOM := -4
    gstc_socket_send := mockSend sendStatus response
    gstc_json_get_int := mockDecode decodeStatus code }

/-- The empty world: nothing sent, no event, no worker, no flag set. -/
def world0 : World (List String) :=
  { sock := [], trace := [], threads := [], waiting := fun _ => 0 }

/-- A client handle for concrete evaluation. -/
def client0 : GstClient :=
  { socket := { handle := 0 } }

/-- Function `gstc_client_new`.  The transport constructor `gstc_socket_new` belongs to
`libgstc_socket.h`, which is not among the sources, and is a parameter: it gives the
status, the pointer it leaves in `client->socket` and the new state of the transport.
`malloc_ok` tells whether `malloc` returns a block.  `out` is the cell the `GstClient **out`
argument points to (`none` for a `NULL` pointer); the second component of the result is
that cell afterwards. -/
def gstc_client_new (env : Env σ)
    (gstc_socket_new : String → Nat → Nat → Int → σ → GstcStatus × GstcSocket × σ)
    (malloc_ok : Bool) (address : Option String) (port : Nat) (wait_time : Nat)
    (keep_connection_open : Int) (out : Option (Option GstClient)) (w : World σ) :
    GstcStatus × Option (Option GstClient) × World σ :=
  gstc_assert_and_ret_val address (env.GSTC_NULL_ARGUMENT, out, w) fun addr =>
  gstc_assert_and_ret_val out (env.GSTC_NULL_ARGUMENT, out, w) fun _ =>
  let out1 : Option (Option GstClient) := some none
  let w1 := w.log (Event.malloc_client malloc_ok)
  if malloc_ok = false then
    (env.GSTC_OOM, out1, w1)
  else
    let r := gstc_socket_new addr port wait_time keep_connection_open w1.sock
    let ret := r.1
    let client : GstClient := { socket := r.2.1 }
    let w2 := ({ w1 with sock := r.2.2 }).log
      (Event.socket_new addr port wait_time keep_connection_open)
    if GSTC_OK ≠ ret then
      (ret, out1, w2.log (Event.free_client client))
    else
      (ret, some (some client), w2)

/-- A transport constructor for concrete evaluation: it reports `status` and leaves the
socket with handle `handle` in the client. -/
def mockSocketNew (status : GstcStatus) (handle : Nat) :
    String → Nat → Nat → Int → List String → GstcStatus × GstcSocket × List String :=
  fun _ _ _ _ st => (status, { handle := handle }, st)

/-- The transport accepts `req` in world `w` and leaves a response from which the decoder
extracts the integer `c`. -/
def Replies (env : Env σ) (cl : GstClient) (w : World σ) (req : String) (c : Int) : Prop :=
  ∃ resp s, env.gstc_socket_send cl.socket req w.sock = (GSTC_OK, some resp, s) ∧
    env.gstc_json_get_int resp "code" env.GSTC_NOT_FOUND = (GSTC_OK, c)

/-- The events `gstc_cmd_send` adds for a response `response` left by a successful send. -/
def decodeEvents : Option String → List Event
  | none => [Event.free none]
  | some resp => [Event.decode resp "code", Event.free (some resp)]

/-- The worker that will release the caller blocked on the flag at `addr` is the youngest
pending one, or the flag is already clear. -/
def WillWake (addr : Nat) (w : World σ) : Prop :=
  w.waiting addr ≠ 1 ∨
    ∃ pre d, w.threads = pre ++ [d] ∧
      d.func = GstcPipelineBusWaitCallback.gstc_pipeline_bus_wait_callback ∧
      d.user_data = addr

/-- The pointers handed to `free` in `gstc_cmd_send`, in order. -/
def frees : List Event → List (Option String)
  | [] => []
  | Event.free r :: es => r :: frees es
  | _ :: es => frees es

/-! ## Lemmas on the dispatcher, the command builders and the event wait -/

@[simp]
theorem gstc_assert_and_ret_val_some {α β : Type} (a : α) (val : β) (rest : α → β) :
    gstc_assert_and_ret_val (some a) val rest = rest a := rfl

@[simp]
theorem gstc_assert_and_ret_val_none {α β : Type} (val : β) (rest : α → β) :
    gstc_assert_and_ret_val none val rest = val := rfl

theorem sends_append (a b : List Event) : sends (a ++ b) = sends a ++ sends b := by
  induction a with
  | nil => rfl
  | cons e es ih => cases e <;> simp [sends, ih]

theorem decodes_append (a b : List Event) : decodes (a ++ b) = decodes a ++ decodes b := by
  induction a with
  | nil => rfl
  | cons e es ih => cases e <;> simp [decodes, ih]

theorem callbacks_append (a b : List Event) :
    callbacks (a ++ b) = callbacks a ++ callbacks b := by
  induction a with
  | nil => rfl
  | cons e es ih => cases e <;> simp [callbacks, ih]

theorem gstc_cmd_send_trace (env : Env σ) (cl : GstClient) (req : String) (w : World σ) :
    (gstc_cmd_send env (some cl) (some req) w).2.trace =
      w.trace ++ Event.send cl.socket req ::
        (if GSTC_OK ≠ (env.gstc_socket_send cl.socket req w.sock).1 then []
         else decodeEvents (env.gstc_socket_send cl.socket req w.sock).2.1) := by
  simp only [gstc_cmd_send, gstc_assert_and_ret_val_some]
  split_ifs with h1 h2
  · simp [World.log]
  · cases hr : (env.gstc_socket_send cl.socket req w.sock).2.1 <;>
      simp [gstc_response_get_code, World.log, decodeEvents, hr]
  · cases hr : (env.gstc_socket_send cl.socket req w.sock).2.1 <;>
      simp [gstc_response_get_code, World.log, decodeEvents, hr]

theorem gstc_cmd_send_sends (env : Env σ) (cl : GstClient) (req : String) (w : World σ) :
    sends (gstc_cmd_send env (some cl) (some req) w).2.trace =
      sends w.trace ++ [(cl.socket, req)] := by
  rw [gstc_cmd_send_trace]
  split_ifs
  · simp [sends_append, sends]
  · cases (env.gstc_socket_send cl.socket req w.sock).2.1 <;>
      simp [sends_append, sends, decodeEvents]

theorem gstc_cmd_send_threads (env : Env σ) (client : Option GstClient)
    (req : Option String) (w : World σ) :
    (gstc_cmd_send env client req w).2.threads = w.threads ∧
    (gstc_cmd_send env client req w).2.waiting = w.waiting := by
  cases client with
  | none => exact ⟨rfl, rfl⟩
  | some cl =>
    cases req with
    | none => exact ⟨rfl, rfl⟩
    | some r =>
      simp only [gstc_cmd_send, gstc_assert_and_ret_val_some]
      split_ifs <;>
        cases (env.gstc_socket_send cl.socket r w.sock).2.1 <;>
        simp [World.log, gstc_response_get_code]

theorem create_pipelines_space_append (x : String) :
    "create " ++ ("/pipelines" ++ (" " ++ x)) = "create /pipelines " ++ x := by
  rw [← String.append_assoc, ← String.append_assoc]; rfl

theorem delete_pipelines_space_append (x : String) :
    "delete " ++ ("/pipelines" ++ (" " ++ x)) = "delete /pipelines " ++ x := by
  rw [← String.append_assoc, ← String.append_assoc]; rfl

theorem state_space_append (x : String) : "/state" ++ (" " ++ x) = "/state " ++ x := by
  rw [← String.append_assoc]; rfl

theorem gstc_pipeline_create_eq (env : Env σ) (cl : GstClient) (name desc : String)
    (w : World σ) :
    gstc_pipeline_create env (some cl) (some name) (some desc) w =
      gstc_cmd_send env (some cl) (some ("create /pipelines " ++ name ++ " " ++ desc)) w := by
  simp [gstc_pipeline_create, gstc_cmd_create, String.append_assoc,
    create_pipelines_space_append]

theorem gstc_pipeline_delete_eq (env : Env σ) (cl : GstClient) (name : String)
    (w : World σ) :
    gstc_pipeline_delete env (some cl) (some name) w =
      gstc_cmd_send env (some cl) (some ("delete /pipelines " ++ name)) w := by
  simp [gstc_pipeline_delete, gstc_cmd_delete, String.append_assoc,
    delete_pipelines_space_append]

theorem update_pipelines_append (x : String) :
    "update " ++ ("/pipelines/" ++ x) = "update /pipelines/" ++ x := by
  rw [← String.append_assoc]; rfl

theorem create_pipelines_append (x : String) :
    "create " ++ ("/pipelines/" ++ x) = "create /pipelines/" ++ x := by
  rw [← String.append_assoc]; rfl

theorem gstc_cmd_change_state_eq (env : Env σ) (cl : GstClient) (name state : String)
    (w : World σ) :
    gstc_cmd_change_state env (some cl) (some name) (some state) w =
      gstc_cmd_send env (some cl)
        (some ("update /pipelines/" ++ name ++ "/state " ++ state)) w := by
  simp [gstc_cmd_change_state, gstc_cmd_update, String.append_assoc,
    update_pipelines_append, state_space_append]

theorem gstc_pipeline_play_eq (env : Env σ) (cl : GstClient) (name : String) (w : World σ) :
    gstc_pipeline_play env (some cl) (some name) w =
      gstc_cmd_send env (some cl)
        (some ("update /pipelines/" ++ name ++ "/state playing")) w := by
  simp [gstc_pipeline_play, gstc_cmd_change_state_eq, String.append_assoc]

theorem gstc_pipeline_pause_eq (env : Env σ) (cl : GstClient) (name : String) (w : World σ) :
    gstc_pipeline_pause env (some cl) (some name) w =
      gstc_cmd_send env (some cl)
        (some ("update /pipelines/" ++ name ++ "/state paused")) w := by
  simp [gstc_pipeline_pause, gstc_cmd_change_state_eq, String.append_assoc]

theorem gstc_pipeline_stop_eq (env : Env σ) (cl : GstClient) (name : String) (w : World σ) :
    gstc_pipeline_stop env (some cl) (some name) w =
      gstc_cmd_send env (some cl)
        (some ("update /pipelines/" ++ name ++ "/state null")) w := by
  simp [gstc_pipeline_stop, gstc_cmd_change_state_eq, String.append_assoc]

theorem gstc_pipeline_inject_eos_eq (env : Env σ) (cl : GstClient) (name : String)
    (w : World σ) :
    gstc_pipeline_inject_eos env (some cl) (some name) w =
      gstc_cmd_send env (some cl)
        (some ("create /pipelines/" ++ name ++ "/event eos")) w := by
  simp [gstc_pipeline_inject_eos, gstc_cmd_create, fmt_s, String.append_assoc,
    create_pipelines_append]

theorem gstc_cmd_send_of_replies (env : Env σ) (cl : GstClient) (w : World σ)
    (req : String) (c : Int) (h : Replies env cl w req c) :
    (gstc_cmd_send env (some cl) (some req) w).1 = c := by
  obtain ⟨resp, s, hs, hd⟩ := h
  simp [gstc_cmd_send, gstc_response_get_code, hs, hd]

theorem gstc_cmd_update_eq (env : Env σ) (cl : GstClient) (what how : String)
    (w : World σ) :
    gstc_cmd_update env (some cl) (some what) (some how) w =
      gstc_cmd_send env (some cl) (some ("update " ++ what ++ " " ++ how)) w := rfl

theorem gstc_cmd_read_eq (env : Env σ) (cl : GstClient) (what : String) (w : World σ) :
    gstc_cmd_read env (some cl) (some what) w =
      gstc_cmd_send env (some cl) (some ("read " ++ what)) w := rfl

theorem gstc_cmd_update_null_client (env : Env σ) (what how : Option String)
    (w : World σ) :
    gstc_cmd_update env none what how w = (env.GSTC_NULL_ARGUMENT, w) := rfl

theorem gstc_cmd_read_null_client (env : Env σ) (what : Option String) (w : World σ) :
    gstc_cmd_read env none what w = (env.GSTC_NULL_ARGUMENT, w) := rfl

theorem gstc_cmd_create_null_client (env : Env σ) (where_ what : Option String)
    (w : World σ) :
    gstc_cmd_create env none where_ what w = (env.GSTC_NULL_ARGUMENT, w) := rfl

theorem call_callback_trace (func : GstcPipelineBusWaitCallback)
    (client : Option GstClient) (pipeline_name message_name : Option String)
    (timeout : Int) (user_data : Nat) (w : World σ) :
    (call_callback func client pipeline_name message_name timeout user_data w).trace =
      w.trace ++ [Event.callback func client pipeline_name message_name timeout user_data] := by
  cases func <;> rfl

theorem call_callback_threads (func : GstcPipelineBusWaitCallback)
    (client : Option GstClient) (pipeline_name message_name : Option String)
    (timeout : Int) (user_data : Nat) (w : World σ) :
    (call_callback func client pipeline_name message_name timeout user_data w).threads =
      w.threads := by
  cases func <;> rfl

theorem gstc_cmd_read_threads (env : Env σ) (client : Option GstClient)
    (what : Option String) (w : World σ) :
    (gstc_cmd_read env client what w).2.threads = w.threads ∧
      (gstc_cmd_read env client what w).2.waiting = w.waiting := by
  cases client with
  | none => exact ⟨rfl, rfl⟩
  | some cl =>
    cases what with
    | none => exact ⟨rfl, rfl⟩
    | some wt => exact gstc_cmd_send_threads env (some cl) (some ("read " ++ wt)) w

theorem gstc_cmd_update_threads (env : Env σ) (client : Option GstClient)
    (what how : Option String) (w : World σ) :
    (gstc_cmd_update env client what how w).2.threads = w.threads ∧
      (gstc_cmd_update env client what how w).2.waiting = w.waiting := by
  cases client with
  | none => exact ⟨rfl, rfl⟩
  | some cl =>
    cases what with
    | none => exact ⟨rfl, rfl⟩
    | some wt =>
      cases how with
      | none => exact ⟨rfl, rfl⟩
      | some hw =>
        exact gstc_cmd_send_threads env (some cl) (some ("update " ++ wt ++ " " ++ hw)) w

theorem gstc_bus_thread_trace (env : Env σ) (data : GstcThreadData) (w : World σ) :
    (gstc_bus_thread env data w).trace =
      (gstc_cmd_read env data.client
        (some ("/pipelines/" ++ fmt_s data.pipeline_name ++ "/bus/message")) w).2.trace ++
      [Event.callback data.func data.client data.pipeline_name data.message data.timeout
        data.user_data] := by
  unfold gstc_bus_thread
  simp only [call_callback_trace]

theorem gstc_bus_thread_threads (env : Env σ) (data : GstcThreadData) (w : World σ) :
    (gstc_bus_thread env data w).threads = w.threads := by
  unfold gstc_bus_thread
  simp only [call_callback_threads]
  exact (gstc_cmd_read_threads env _ _ w).1

theorem gstc_pipeline_bus_wait_async_trace (env : Env σ) (client : Option GstClient)
    (pipeline_name message_name : Option String) (timeout : Int)
    (callback : GstcPipelineBusWaitCallback) (user_data : Nat) (w : World σ) :
    (gstc_pipeline_bus_wait_async env client pipeline_name message_name timeout callback
        user_data w).2.trace =
      (gstc_cmd_update env client
        (some ("/pipelines/" ++ fmt_s pipeline_name ++ "/bus/" ++ "timeout"))
        (some (fmt_lli timeout))
        (gstc_cmd_update env client
          (some ("/pipelines/" ++ fmt_s pipeline_name ++ "/bus/" ++ "types"))
          message_name w).2).2.trace ++
      [Event.spawn
        { client := client, pipeline_name := pipeline_name, message := message_name,
          func := callback, user_data := user_data, timeout := timeout }] := rfl

theorem gstc_pipeline_bus_wait_async_threads (env : Env σ) (client : Option GstClient)
    (pipeline_name message_name : Option String) (timeout : Int)
    (callback : GstcPipelineBusWaitCallback) (user_data : Nat) (w : World σ) :
    (gstc_pipeline_bus_wait_async env client pipeline_name message_name timeout callback
        user_data w).2.threads =
      w.threads ++
        [{ client := client, pipeline_name := pipeline_name, message := message_name,
           func := callback, user_data := user_data, timeout := timeout }] := by
  unfold gstc_pipeline_bus_wait_async gstc_thread_new
  simp only [World.log]
  rw [(gstc_cmd_update_threads env _ _ _ _).1, (gstc_cmd_update_threads env _ _ _ _).1]

theorem sends_spawn (data : GstcThreadData) : sends [Event.spawn data] = [] := rfl

theorem sends_callback (f : GstcPipelineBusWaitCallback) (c : Option GstClient)
    (p m : Option String) (t : Int) (u : Nat) :
    sends [Event.callback f c p m t u] = [] := rfl

theorem gstc_cmd_send_callbacks (env : Env σ) (client : Option GstClient)
    (req : Option String) (w : World σ) :
    callbacks (gstc_cmd_send env client req w).2.trace = callbacks w.trace := by
  cases client with
  | none => rfl
  | some cl =>
    cases req with
    | none => rfl
    | some r =>
      rw [gstc_cmd_send_trace, callbacks_append]
      split_ifs
      · simp [callbacks]
      · cases (env.gstc_socket_send cl.socket r w.sock).2.1 <;>
          simp [callbacks, decodeEvents]

theorem gstc_cmd_read_callbacks (env : Env σ) (client : Option GstClient)
    (what : Option String) (w : World σ) :
    callbacks (gstc_cmd_read env client what w).2.trace = callbacks w.trace := by
  cases client with
  | none => rfl
  | some cl =>
    cases what with
    | none => rfl
    | some wt => exact gstc_cmd_send_callbacks env (some cl) (some ("read " ++ wt)) w

theorem gstc_cmd_update_callbacks (env : Env σ) (client : Option GstClient)
    (what how : Option String) (w : World σ) :
    callbacks (gstc_cmd_update env client what how w).2.trace = callbacks w.trace := by
  cases client with
  | none => rfl
  | some cl =>
    cases what with
    | none => rfl
    | some wt =>
      cases how with
      | none => rfl
      | some hw =>
        exact gstc_cmd_send_callbacks env (some cl) (some ("update " ++ wt ++ " " ++ hw)) w

theorem gstc_bus_thread_waiting (env : Env σ) (data : GstcThreadData) (w : World σ) :
    (gstc_bus_thread env data w).waiting =
      match data.func with
      | GstcPipelineBusWaitCallback.user _ => w.waiting
      | GstcPipelineBusWaitCallback.gstc_pipeline_bus_wait_callback =>
        fun a => if a = data.user_data then 0 else w.waiting a := by
  unfold gstc_bus_thread call_callback
  cases hf : data.func with
  | user fn =>
    simp only [World.log]
    exact (gstc_cmd_read_threads env _ _ w).2
  | gstc_pipeline_bus_wait_callback =>
    simp only [World.log, gstc_pipeline_bus_wait_callback]
    rw [(gstc_cmd_read_threads env _ _ w).2]

theorem bus_wait_loop_returns (env : Env σ) (addr : Nat) :
    ∀ (fuel : Nat) (w : World σ), w.threads.length < fuel → WillWake addr w →
      ∃ w1, bus_wait_loop env addr fuel w = some w1 := by
  intro fuel
  induction fuel with
  | zero => intro w hlen; exact absurd hlen (Nat.not_lt_zero _)
  | succ k ih =>
    intro w hlen hwake
    unfold bus_wait_loop
    by_cases hw : w.waiting addr = 1
    · rw [if_pos hw]
      rcases hwake with h | ⟨pre, d, hthr, hfunc, hud⟩
      · exact absurd hw h
      · cases hth : w.threads with
        | nil => rw [hth] at hthr; simp at hthr
        | cons x rest =>
          simp only [run_worker, hth]
          apply ih
          · rw [gstc_bus_thread_threads]
            rw [hth] at hlen
            simpa using hlen
          · rw [hth] at hthr
            cases pre with
            | nil =>
              left
              simp at hthr
              obtain ⟨hx, _⟩ := hthr
              rw [gstc_bus_thread_waiting, hx, hfunc]
              simp [hud]
            | cons y pre1 =>
              right
              simp at hthr
              refine ⟨pre1, d, ?_, hfunc, hud⟩
              rw [gstc_bus_thread_threads]
              exact hthr.2
    · rw [if_neg hw]
      exact ⟨w, rfl⟩

theorem gstc_pipeline_bus_wait_returns (env : Env σ) (fuel addr : Nat)
    (client : Option GstClient) (pipeline_name message_name : Option String)
    (timeout : Int) (w : World σ) (hfuel : w.threads.length + 2 ≤ fuel) :
    ∃ w1, gstc_pipeline_bus_wait env fuel addr client pipeline_name message_name timeout w =
      some (GSTC_OK, w1) := by
  unfold gstc_pipeline_bus_wait
  simp only []
  obtain ⟨w1, h1⟩ := bus_wait_loop_returns env addr fuel
    (gstc_pipeline_bus_wait_async env client pipeline_name message_name timeout
      GstcPipelineBusWaitCallback.gstc_pipeline_bus_wait_callback addr
      { w with waiting := fun a => if a = addr then 1 else w.waiting a }).2
    (by rw [gstc_pipeline_bus_wait_async_threads]; simp; omega)
    (Or.inr ⟨_, _, gstc_pipeline_bus_wait_async_threads env _ _ _ _ _ _ _, rfl, rfl⟩)
  rw [h1]
  exact ⟨w1, rfl⟩

theorem gstc_pipeline_bus_wait_async_waiting (env : Env σ) (client : Option GstClient)
    (pipeline_name message_name : Option String) (timeout : Int)
    (callback : GstcPipelineBusWaitCallback) (user_data : Nat) (w : World σ) :
    (gstc_pipeline_bus_wait_async env client pipeline_name message_name timeout callback
        user_data w).2.waiting = w.waiting := by
  unfold gstc_pipeline_bus_wait_async gstc_thread_new
  simp only [World.log]
  rw [(gstc_cmd_update_threads env _ _ _ _).2, (gstc_cmd_update_threads env _ _ _ _).2]

theorem gstc_pipeline_bus_wait_async_null_client (env : Env σ)
    (pipeline_name message_name : Option String) (timeout : Int)
    (callback : GstcPipelineBusWaitCallback) (user_data : Nat) (w : World σ) :
    sends (gstc_pipeline_bus_wait_async env none pipeline_name message_name timeout callback
        user_data w).2.trace = sends w.trace := by
  rw [gstc_pipeline_bus_wait_async_trace, gstc_cmd_update_null_client,
    gstc_cmd_update_null_client, sends_append, sends_spawn]
  simp

theorem gstc_bus_thread_null_client (env : Env σ) (data : GstcThreadData) (w : World σ)
    (h : data.client = none) :
    sends (gstc_bus_thread env data w).trace = sends w.trace := by
  rw [gstc_bus_thread_trace, h, gstc_cmd_read_null_client, sends_append, sends_callback]
  simp

theorem bus_wait_loop_single (env : Env σ) (addr k : Nat) (w : World σ)
    (d : GstcThreadData) (hw : w.waiting addr = 1) (ht : w.threads = [d])
    (hf : d.func = GstcPipelineBusWaitCallback.gstc_pipeline_bus_wait_callback)
    (hu : d.user_data = addr) :
    bus_wait_loop env addr (k + 2) w =
      some (gstc_bus_thread env d { w with threads := [] }) := by
  rw [bus_wait_loop]
  simp only [hw, if_true, run_worker, ht]
  rw [bus_wait_loop]
  simp [gstc_bus_thread_waiting, hf, hu]

theorem gstc_pipeline_bus_wait_alone (env : Env σ) (k addr : Nat)
    (client : Option GstClient) (pipeline_name message_name : Option String)
    (timeout : Int) (w : World σ) (h : w.threads = []) :
    gstc_pipeline_bus_wait env (k + 2) addr client pipeline_name message_name timeout w =
      some (GSTC_OK,
        gstc_bus_thread env
          { client := client, pipeline_name := pipeline_name, message := message_name,
            func := GstcPipelineBusWaitCallback.gstc_pipeline_bus_wait_callback,
            user_data := addr, timeout := timeout }
          { (gstc_pipeline_bus_wait_async env client pipeline_name message_name timeout
              GstcPipelineBusWaitCallback.gstc_pipeline_bus_wait_callback addr
              { w with waiting := fun a => if a = addr then 1 else w.waiting a }).2 with
            threads := [] }) := by
  unfold gstc_pipeline_bus_wait
  simp only []
  rw [bus_wait_loop_single env addr k _
    { client := client, pipeline_name := pipeline_name, message := message_name,
      func := GstcPipelineBusWaitCallback.gstc_pipeline_bus_wait_callback,
      user_data := addr, timeout := timeout }
    (by rw [gstc_pipeline_bus_wait_async_waiting]; simp)
    (by rw [gstc_pipeline_bus_wait_async_threads]; simp [h]) rfl rfl]
  rfl

theorem gstc_pipeline_bus_wait_null_client (env : Env σ) (k addr : Nat)
    (pipeline_name message_name : Option String) (timeout : Int) (w : World σ)
    (h : w.threads = []) :
    ∃ w1, gstc_pipeline_bus_wait env (k + 2) addr none pipeline_name message_name timeout w =
        some (GSTC_OK, w1) ∧ sends w1.trace = sends w.trace := by
  refine ⟨_, gstc_pipeline_bus_wait_alone env k addr none _ _ _ w h, ?_⟩
  rw [gstc_bus_thread_null_client env _ _ rfl]
  exact gstc_pipeline_bus_wait_async_null_client env _ _ _ _ _ _

theorem gstc_cmd_update_status_examples :
    (gstc_cmd_update (mockEnv (-2) none 0 0) (some client0) (some "/pipelines/p/state")
        (some "playing") world0).1 = -2 ∧
      (gstc_cmd_update (mockEnv 0 (some "r") (-6) 0) (some client0)
        (some "/pipelines/p/state") (some "playing") world0).1 = -6 ∧
      (gstc_cmd_update (mockEnv 0 (some "r") 0 5) (some client0)
        (some "/pipelines/p/state") (some "playing") world0).1 = 5 ∧
      (gstc_cmd_update (mockEnv 0 (some "r") 0 0) (some client0)
        (some "/pipelines/p/state") (some "playing") world0).1 = 0 := by
  decide

theorem gstc_element_set_eq (env : Env σ) (cl : GstClient) (p e q v : String)
    (w : World σ) :
    (gstc_element_set env (some cl) (some p) (some e) (some q) v w).2 =
      (gstc_cmd_send env (some cl)
        (some ("update /pipelines/" ++ p ++ "/elements/" ++ e ++ "/properties/" ++ q ++
          " " ++ v)) w).2 := by
  simp [gstc_element_set, gstc_cmd_update, fmt_s, String.append_assoc,
    update_pipelines_append]

theorem frees_append (a b : List Event) : frees (a ++ b) = frees a ++ frees b := by
  induction a with
  | nil => rfl
  | cons e es ih => cases e <;> simp [frees, ih]

theorem gstc_cmd_send_null_response (env : Env σ) (cl : GstClient) (req : String)
    (w : World σ) (s : σ)
    (hs : env.gstc_socket_send cl.socket req w.sock = (GSTC_OK, none, s)) :
    (gstc_cmd_send env (some cl) (some req) w).1 =
      if GSTC_OK = env.GSTC_NULL_ARGUMENT then env.GSTC_NOT_FOUND
      else env.GSTC_NULL_ARGUMENT := by
  simp only [gstc_cmd_send, gstc_assert_and_ret_val_some, hs, gstc_response_get_code,
    gstc_assert_and_ret_val_none]
  split_ifs <;> simp_all

theorem split_at_space (l1 l2 r1 r2 : List Char) (h1 : ' ' ∉ l1) (h2 : ' ' ∉ l2)
    (h : l1 ++ ' ' :: r1 = l2 ++ ' ' :: r2) : l1 = l2 ∧ r1 = r2 := by
  induction l1 generalizing l2 with
  | nil =>
    cases l2 with
    | nil => simpa using h
    | cons c cs =>
      simp at h
      exact absurd (by simp [← h.1]) h2
  | cons a as ih =>
    cases l2 with
    | nil =>
      simp at h
      exact absurd (by simp [h.1]) h1
    | cons c cs =>
      simp at h
      obtain ⟨hac, hrest⟩ := h
      have := ih cs (fun hh => h1 (List.mem_cons_of_mem _ hh))
        (fun hh => h2 (List.mem_cons_of_mem _ hh)) hrest
      exact ⟨by rw [hac, this.1], this.2⟩

theorem string_append_left_cancel (p a b : String) (h : p ++ a = p ++ b) : a = b := by
  have hd := congrArg String.data h
  simp only [String.data_append] at hd
  exact String.ext (List.append_cancel_left hd)

theorem name_space_desc_injective (n1 n2 d1 d2 : String) (h1 : ' ' ∉ n1.data)
    (h2 : ' ' ∉ n2.data) (h : n1 ++ " " ++ d1 = n2 ++ " " ++ d2) : n1 = n2 ∧ d1 = d2 := by
  have hd := congrArg String.data h
  simp only [String.data_append, List.append_assoc] at hd
  have := split_at_space n1.data n2.data d1.data d2.data h1 h2 hd
  exact ⟨String.ext this.1, String.ext this.2⟩

/-! ## The claims -/

/-- C1: called with a client, a pipeline name and a description that are all present,
`gstc_pipeline_create` hands exactly one request to the transport, on the client's socket,
and that request is `create /pipelines <name> <description>`; for the name `pipe` and the
description `fakesrc ! fakesink` it is `create /pipelines pipe fakesrc ! fakesink`. -/
theorem gstc_pipeline_create_sends_one_request (env : Env σ) (cl : GstClient)
    (name desc : String) (w : World σ) :
    sends (gstc_pipeline_create env (some cl) (some name) (some desc) w).2.trace =
        sends w.trace ++ [(cl.socket, "create /pipelines " ++ name ++ " " ++ desc)] ∧
      sends (gstc_pipeline_create env (some cl) (some "pipe")
          (some "fakesrc ! fakesink") w).2.trace =
        sends w.trace ++ [(cl.socket, "create /pipelines pipe fakesrc ! fakesink")] := by
  constructor
  · rw [gstc_pipeline_create_eq, gstc_cmd_send_sends]
  · rw [gstc_pipeline_create_eq, gstc_cmd_send_sends]
    rfl

/-- C2: when the transport accepts the request and the decoder extracts the integer `c`
from the `code` field of the response, `gstc_cmd_send` returns `c` itself, whatever `c`
is; hence `gstc_pipeline_create`, `gstc_pipeline_delete`, `gstc_pipeline_play`,
`gstc_pipeline_pause`, `gstc_pipeline_stop` and `gstc_pipeline_inject_eos`, whose request
this is, return `c` as well (and so `0` when the code is `0`). -/
theorem gstc_cmd_send_returns_decoded_code (env : Env σ) (cl : GstClient) (w : World σ)
    (req : String) (c : Int) (h : Replies env cl w req c) :
    (gstc_cmd_send env (some cl) (some req) w).1 = c ∧
      (∀ name desc : String, req = "create /pipelines " ++ name ++ " " ++ desc →
        (gstc_pipeline_create env (some cl) (some name) (some desc) w).1 = c) ∧
      (∀ name : String, req = "delete /pipelines " ++ name →
        (gstc_pipeline_delete env (some cl) (some name) w).1 = c) ∧
      (∀ name : String, req = "update /pipelines/" ++ name ++ "/state playing" →
        (gstc_pipeline_play env (some cl) (some name) w).1 = c) ∧
      (∀ name : String, req = "update /pipelines/" ++ name ++ "/state paused" →
        (gstc_pipeline_pause env (some cl) (some name) w).1 = c) ∧
      (∀ name : String, req = "update /pipelines/" ++ name ++ "/state null" →
        (gstc_pipeline_stop env (some cl) (some name) w).1 = c) ∧
      (∀ name : String, req = "create /pipelines/" ++ name ++ "/event eos" →
        (gstc_pipeline_inject_eos env (some cl) (some name) w).1 = c) := by
  have hc := gstc_cmd_send_of_replies env cl w req c h
  refine ⟨hc, ?_, ?_, ?_, ?_, ?_, ?_⟩
  · intro name desc hreq
    rw [gstc_pipeline_create_eq, ← hreq]; exact hc
  · intro name hreq
    rw [gstc_pipeline_delete_eq, ← hreq]; exact hc
  · intro name hreq
    rw [gstc_pipeline_play_eq, ← hreq]; exact hc
  · intro name hreq
    rw [gstc_pipeline_pause_eq, ← hreq]; exact hc
  · intro name hreq
    rw [gstc_pipeline_stop_eq, ← hreq]; exact hc
  · intro name hreq
    rw [gstc_pipeline_inject_eos_eq, ← hreq]; exact hc

/-- Witness of C2: a transport that accepts `create /pipelines pipe fakesrc ! fakesink`
and a decoder that extracts the code `0` make `gstc_cmd_send` return `0`, and also a code
of `5` is handed on as it is. -/
theorem gstc_cmd_send_returns_decoded_code_witness :
    Replies (mockEnv 0 (some "r") 0 0) client0 world0
        "create /pipelines pipe fakesrc ! fakesink" 0 ∧
      (gstc_cmd_send (mockEnv 0 (some "r") 0 0) (some client0)
        (some "create /pipelines pipe fakesrc ! fakesink") world0).1 = 0 ∧
      (gstc_pipeline_create (mockEnv 0 (some "r") 0 0) (some client0) (some "pipe")
        (some "fakesrc ! fakesink") world0).1 = 0 ∧
      (gstc_pipeline_create (mockEnv 0 (some "r") 0 5) (some client0) (some "pipe")
        (some "fakesrc ! fakesink") world0).1 = 5 :=
  have h0 : Replies (mockEnv 0 (some "r") 0 0) client0 world0
      "create /pipelines pipe fakesrc ! fakesink" 0 := ⟨"r", _, rfl, rfl⟩
  have h5 : Replies (mockEnv 0 (some "r") 0 5) client0 world0
      "create /pipelines pipe fakesrc ! fakesink" 5 := ⟨"r", _, rfl, rfl⟩
  ⟨h0,
    (gstc_cmd_send_returns_decoded_code _ client0 world0 _ 0 h0).1,
    (gstc_cmd_send_returns_decoded_code _ client0 world0 _ 0 h0).2.1 "pipe"
      "fakesrc ! fakesink" (by decide),
    (gstc_cmd_send_returns_decoded_code _ client0 world0 _ 5 h5).2.1 "pipe"
      "fakesrc ! fakesink" (by decide)⟩

/-- C3 fails as stated: called with a null client (and every string present),
`gstc_element_set` returns `GSTC_OK`, not `GSTC_NULL_ARGUMENT`. -/
theorem gstc_element_set_null_client_returns_ok :
    (gstc_element_set (mockEnv 0 (some "r") 0 0) none (some "pipe") (some "elem")
        (some "prop") "1" world0).1 = GSTC_OK ∧
      (gstc_element_set (mockEnv 0 (some "r") 0 0) none (some "pipe") (some "elem")
        (some "prop") "1" world0).1 ≠ (mockEnv 0 (some "r") 0 0).GSTC_NULL_ARGUMENT := by
  decide

/-- C3, amended: `gstc_pipeline_create`, `gstc_pipeline_delete`, `gstc_pipeline_play`,
`gstc_pipeline_pause`, `gstc_pipeline_stop` and `gstc_client_ping`, called with any of
their handle or string arguments null, return `GSTC_NULL_ARGUMENT` and leave the world as
it was (so nothing is sent); `gstc_pipeline_inject_eos` does so when the client is null.
Called with a null client, `gstc_element_set`, `gstc_pipeline_bus_wait_async` with its
worker, and `gstc_pipeline_bus_wait` (no other worker pending) send nothing either, but
they return `GSTC_OK`. -/
theorem null_argument_handling (env : Env σ) (w : World σ) :
    (∀ (client : Option GstClient) (name desc : Option String),
        client = none ∨ name = none ∨ desc = none →
        gstc_pipeline_create env client name desc w = (env.GSTC_NULL_ARGUMENT, w)) ∧
      (∀ (client : Option GstClient) (name : Option String), client = none ∨ name = none →
        gstc_pipeline_delete env client name w = (env.GSTC_NULL_ARGUMENT, w)) ∧
      (∀ (client : Option GstClient) (name : Option String), client = none ∨ name = none →
        gstc_pipeline_play env client name w = (env.GSTC_NULL_ARGUMENT, w)) ∧
      (∀ (client : Option GstClient) (name : Option String), client = none ∨ name = none →
        gstc_pipeline_pause env client name w = (env.GSTC_NULL_ARGUMENT, w)) ∧
      (∀ (client : Option GstClient) (name : Option String), client = none ∨ name = none →
        gstc_pipeline_stop env client name w = (env.GSTC_NULL_ARGUMENT, w)) ∧
      gstc_client_ping env none w = (env.GSTC_NULL_ARGUMENT, w) ∧
      (∀ name : String,
        gstc_pipeline_inject_eos env none (some name) w = (env.GSTC_NULL_ARGUMENT, w)) ∧
      (∀ p e q how : String,
        gstc_element_set env none (some p) (some e) (some q) how w = (GSTC_OK, w)) ∧
      (∀ (n : String) (m : Option String) (t : Int) (cb : GstcPipelineBusWaitCallback)
          (ud : Nat),
        (gstc_pipeline_bus_wait_async env none (some n) m t cb ud w).1 = GSTC_OK ∧
        sends (gstc_pipeline_bus_wait_async env none (some n) m t cb ud w).2.trace =
          sends w.trace ∧
        sends (gstc_bus_thread env
            { client := none, pipeline_name := some n, message := m, func := cb,
              user_data := ud, timeout := t }
            (gstc_pipeline_bus_wait_async env none (some n) m t cb ud w).2).trace =
          sends w.trace) ∧
      (∀ (n : String) (m : Option String) (t : Int) (addr k : Nat), w.threads = [] →
        ∃ w1, gstc_pipeline_bus_wait env (k + 2) addr none (some n) m t w =
            some (GSTC_OK, w1) ∧ sends w1.trace = sends w.trace) := by
  refine ⟨?_, ?_, ?_, ?_, ?_, rfl, fun _ => rfl, fun _ _ _ _ => rfl, ?_, ?_⟩
  · intro client name desc h
    cases client <;> cases name <;> cases desc <;> simp_all [gstc_pipeline_create]
  · intro client name h
    cases client <;> cases name <;> simp_all [gstc_pipeline_delete]
  · intro client name h
    cases client <;> cases name <;> simp_all [gstc_pipeline_play]
  · intro client name h
    cases client <;> cases name <;> simp_all [gstc_pipeline_pause]
  · intro client name h
    cases client <;> cases name <;> simp_all [gstc_pipeline_stop]
  · intro n m t cb ud
    refine ⟨rfl, gstc_pipeline_bus_wait_async_null_client env _ _ _ _ _ w, ?_⟩
    rw [gstc_bus_thread_null_client env _ _ rfl]
    exact gstc_pipeline_bus_wait_async_null_client env _ _ _ _ _ w
  · intro n m t addr k h
    exact gstc_pipeline_bus_wait_null_client env k addr _ _ _ w h

/-- Witness of C3, amended: `gstc_pipeline_create` with a null client and
`gstc_pipeline_play` with a null pipeline name return `GSTC_NULL_ARGUMENT` in the
unchanged world; `gstc_pipeline_bus_wait` with a null client returns `GSTC_OK` and
nothing was sent. -/
theorem null_argument_handling_witness :
    gstc_pipeline_create (mockEnv 0 (some "r") 0 0) none (some "pipe")
        (some "fakesrc ! fakesink") world0 =
        ((mockEnv 0 (some "r") 0 0).GSTC_NULL_ARGUMENT, world0) ∧
      gstc_pipeline_play (mockEnv 0 (some "r") 0 0) (some client0) none world0 =
        ((mockEnv 0 (some "r") 0 0).GSTC_NULL_ARGUMENT, world0) ∧
      ∃ w1, gstc_pipeline_bus_wait (mockEnv 0 (some "r") 0 0) (0 + 2) 7 none (some "pipe")
          (some "eos") (-1) world0 = some (GSTC_OK, w1) ∧
        sends w1.trace = sends world0.trace :=
  ⟨(null_argument_handling (mockEnv 0 (some "r") 0 0) world0).1 none (some "pipe")
      (some "fakesrc ! fakesink") (Or.inl rfl),
    (null_argument_handling (mockEnv 0 (some "r") 0 0) world0).2.2.1 (some client0) none
      (Or.inr rfl),
    (null_argument_handling (mockEnv 0 (some "r") 0 0) world0).2.2.2.2.2.2.2.2.2
      "pipe" (some "eos") (-1) 7 0 rfl⟩

/-- C4: when the transport reports a status `e` other than `GSTC_OK`, `gstc_cmd_send`
returns `e` itself, the only event it adds is the send, and the decoder is not called. -/
theorem gstc_cmd_send_transport_error (env : Env σ) (cl : GstClient) (req : String)
    (w : World σ) (e : GstcStatus)
    (h : (env.gstc_socket_send cl.socket req w.sock).1 = e) (he : e ≠ GSTC_OK) :
    (gstc_cmd_send env (some cl) (some req) w).1 = e ∧
      (gstc_cmd_send env (some cl) (some req) w).2.trace =
        w.trace ++ [Event.send cl.socket req] ∧
      decodes (gstc_cmd_send env (some cl) (some req) w).2.trace = decodes w.trace := by
  have hne : GSTC_OK ≠ (env.gstc_socket_send cl.socket req w.sock).1 := by
    rw [h]; exact fun hh => he hh.symm
  have ht : (gstc_cmd_send env (some cl) (some req) w).2.trace =
      w.trace ++ [Event.send cl.socket req] := by
    rw [gstc_cmd_send_trace, if_pos hne]
  refine ⟨?_, ht, ?_⟩
  · simp only [gstc_cmd_send, gstc_assert_and_ret_val_some, if_pos hne]
    exact h
  · rw [ht, decodes_append]
    simp [decodes]

/-- Witness of C4: a transport that reports `-2` makes `gstc_cmd_send` return `-2`. -/
theorem gstc_cmd_send_transport_error_witness :
    (gstc_cmd_send (mockEnv (-2) (some "r") 0 0) (some client0) (some "read /") world0).1
        = -2 ∧
      (gstc_cmd_send (mockEnv (-2) (some "r") 0 0) (some client0) (some "read /")
        world0).2.trace = world0.trace ++ [Event.send client0.socket "read /"] ∧
      decodes (gstc_cmd_send (mockEnv (-2) (some "r") 0 0) (some client0) (some "read /")
        world0).2.trace = decodes world0.trace :=
  gstc_cmd_send_transport_error (mockEnv (-2) (some "r") 0 0) client0 "read /" world0 (-2)
    rfl (by decide)

/-- C5: when the transport accepts the request and the decoder reports a status `e` other
than `GSTC_OK` for the `code` field of the response, `gstc_cmd_send` returns `e`, whatever
the decoder left in the local `code` (whose initial value is `GSTC_NOT_FOUND`). -/
theorem gstc_cmd_send_decode_failure (env : Env σ) (cl : GstClient) (req : String)
    (w : World σ) (resp : String) (s : σ) (e : GstcStatus) (left : Int)
    (hs : env.gstc_socket_send cl.socket req w.sock = (GSTC_OK, some resp, s))
    (hd : env.gstc_json_get_int resp "code" env.GSTC_NOT_FOUND = (e, left))
    (he : e ≠ GSTC_OK) :
    (gstc_cmd_send env (some cl) (some req) w).1 = e := by
  have hne : ¬ (GSTC_OK = e) := fun hh => he hh.symm
  simp [gstc_cmd_send, gstc_response_get_code, hs, hd, hne]

/-- Witness of C5: the decoder reports `-6` and leaves `GSTC_NOT_FOUND` (`-7`) in `code`;
`gstc_cmd_send` returns `-6`. -/
theorem gstc_cmd_send_decode_failure_witness :
    (gstc_cmd_send (mockEnv 0 (some "r") (-6) 0) (some client0) (some "read /") world0).1
      = -6 :=
  gstc_cmd_send_decode_failure (mockEnv 0 (some "r") (-6) 0) client0 "read /" world0 "r"
    ["read /"] (-6) (-7) rfl rfl (by decide)

/-- C6: with a client and a pipeline name `n` present, `gstc_pipeline_play`,
`gstc_pipeline_pause` and `gstc_pipeline_stop` each hand exactly one request to the
transport: `update /pipelines/<n>/state ` followed by `playing`, `paused` and `null`
respectively; play on `pipe` sends `update /pipelines/pipe/state playing`. -/
theorem gstc_pipeline_state_sends_one_request (env : Env σ) (cl : GstClient) (n : String)
    (w : World σ) :
    sends (gstc_pipeline_play env (some cl) (some n) w).2.trace =
        sends w.trace ++ [(cl.socket, "update /pipelines/" ++ n ++ "/state " ++ "playing")] ∧
      sends (gstc_pipeline_pause env (some cl) (some n) w).2.trace =
        sends w.trace ++ [(cl.socket, "update /pipelines/" ++ n ++ "/state " ++ "paused")] ∧
      sends (gstc_pipeline_stop env (some cl) (some n) w).2.trace =
        sends w.trace ++ [(cl.socket, "update /pipelines/" ++ n ++ "/state " ++ "null")] ∧
      sends (gstc_pipeline_play env (some cl) (some "pipe") w).2.trace =
        sends w.trace ++ [(cl.socket, "update /pipelines/pipe/state playing")] := by
  refine ⟨?_, ?_, ?_, ?_⟩
  · rw [gstc_pipeline_play_eq, gstc_cmd_send_sends, String.append_assoc _ "/state " _]
    rfl
  · rw [gstc_pipeline_pause_eq, gstc_cmd_send_sends, String.append_assoc _ "/state " _]
    rfl
  · rw [gstc_pipeline_stop_eq, gstc_cmd_send_sends, String.append_assoc _ "/state " _]
    rfl
  · rw [gstc_pipeline_play_eq, gstc_cmd_send_sends]
    rfl

/-- C7: `gstc_element_set` returns `GSTC_OK` for every input, every transport and every
decoder; the world it leaves is the one left by its `gstc_cmd_update` dispatch, whose own
status is dropped. -/
theorem gstc_element_set_returns_ok (env : Env σ) (client : Option GstClient)
    (pname element parameter : Option String) (how : String) (w : World σ) :
    (gstc_element_set env client pname element parameter how w).1 = GSTC_OK ∧
      (gstc_element_set env client pname element parameter how w).2 =
        (gstc_cmd_update env client
          (some ("/pipelines/" ++ fmt_s pname ++ "/elements/" ++ fmt_s element ++
            "/properties/" ++ fmt_s parameter)) (some how) w).2 :=
  ⟨rfl, rfl⟩

/-- C8: with a client, a pipeline name `n` and a filter name `m` present and any timeout
`t`, `gstc_pipeline_bus_wait_async` hands the worker's descriptor to `gstc_thread_new`
after exactly two sends, `update /pipelines/<n>/bus/types <m>` and then
`update /pipelines/<n>/bus/timeout <t in decimal>`, whatever the transport and the decoder
answer to the first; the worker run to completion adds exactly one more,
`read /pipelines/<n>/bus/message`.  The timeout is rendered with its sign: `-1` gives
`-1` and `0` gives `0`. -/
theorem gstc_pipeline_bus_wait_async_sends (env : Env σ) (cl : GstClient) (n m : String)
    (t : Int) (callback : GstcPipelineBusWaitCallback) (user_data : Nat) (w : World σ) :
    (gstc_pipeline_bus_wait_async env (some cl) (some n) (some m) t callback
        user_data w).2.threads =
        w.threads ++ [{ client := some cl, pipeline_name := some n, message := some m,
                        func := callback, user_data := user_data, timeout := t }] ∧
      sends (gstc_pipeline_bus_wait_async env (some cl) (some n) (some m) t callback
        user_data w).2.trace =
        sends w.trace ++
          [(cl.socket, "update /pipelines/" ++ n ++ "/bus/types " ++ m),
           (cl.socket, "update /pipelines/" ++ n ++ "/bus/timeout " ++ fmt_lli t)] ∧
      sends (gstc_bus_thread env
          { client := some cl, pipeline_name := some n, message := some m,
            func := callback, user_data := user_data, timeout := t }
          (gstc_pipeline_bus_wait_async env (some cl) (some n) (some m) t callback
            user_data w).2).trace =
        sends w.trace ++
          [(cl.socket, "update /pipelines/" ++ n ++ "/bus/types " ++ m),
           (cl.socket, "update /pipelines/" ++ n ++ "/bus/timeout " ++ fmt_lli t),
           (cl.socket, "read /pipelines/" ++ n ++ "/bus/message")] ∧
      fmt_lli (-1) = "-1" ∧ fmt_lli 0 = "0" := by
  have h2 : sends (gstc_pipeline_bus_wait_async env (some cl) (some n) (some m) t callback
        user_data w).2.trace =
        sends w.trace ++
          [(cl.socket, "update /pipelines/" ++ n ++ "/bus/types " ++ m),
           (cl.socket, "update /pipelines/" ++ n ++ "/bus/timeout " ++ fmt_lli t)] := by
    rw [gstc_pipeline_bus_wait_async_trace, sends_append, sends_spawn, gstc_cmd_update_eq,
      gstc_cmd_update_eq, gstc_cmd_send_sends, gstc_cmd_send_sends]
    simp [fmt_s, String.append_assoc, update_pipelines_append]
  refine ⟨gstc_pipeline_bus_wait_async_threads env _ _ _ _ _ _ w, h2, ?_, by decide, by decide⟩
  rw [gstc_bus_thread_trace, sends_append, sends_callback]
  simp only [fmt_s, gstc_cmd_read_eq, gstc_cmd_send_sends, h2]
  simp [String.append_assoc]
  rw [← String.append_assoc]; rfl

/-- C9: the worker `gstc_bus_thread` adds exactly one callback call to the trace, it comes
after everything its read dispatch did, whatever that dispatch returned, and its five
arguments are those stored in the descriptor; `gstc_pipeline_bus_wait_async` itself calls
no callback and stores in the descriptor it spawns the client, pipeline name, filter name,
timeout and user context it was given. -/
theorem gstc_bus_thread_calls_back_once (env : Env σ) (client : Option GstClient)
    (pipeline_name message_name : Option String) (timeout : Int)
    (callback : GstcPipelineBusWaitCallback) (user_data : Nat) (w w1 : World σ) :
    (gstc_pipeline_bus_wait_async env client pipeline_name message_name timeout callback
        user_data w).2.threads =
        w.threads ++ [{ client := client, pipeline_name := pipeline_name,
                        message := message_name, func := callback,
                        user_data := user_data, timeout := timeout }] ∧
      callbacks (gstc_pipeline_bus_wait_async env client pipeline_name message_name timeout
        callback user_data w).2.trace = callbacks w.trace ∧
      (gstc_bus_thread env
          { client := client, pipeline_name := pipeline_name, message := message_name,
            func := callback, user_data := user_data, timeout := timeout } w1).trace =
        (gstc_cmd_read env client
          (some ("/pipelines/" ++ fmt_s pipeline_name ++ "/bus/message")) w1).2.trace ++
        [Event.callback callback client pipeline_name message_name timeout user_data] ∧
      callbacks (gstc_bus_thread env
          { client := client, pipeline_name := pipeline_name, message := message_name,
            func := callback, user_data := user_data, timeout := timeout } w1).trace =
        callbacks w1.trace ++
          [Event.callback callback client pipeline_name message_name timeout user_data] := by
  refine ⟨gstc_pipeline_bus_wait_async_threads env _ _ _ _ _ _ w, ?_,
    gstc_bus_thread_trace env _ w1, ?_⟩
  · rw [gstc_pipeline_bus_wait_async_trace, callbacks_append]
    rw [gstc_cmd_update_callbacks, gstc_cmd_update_callbacks]
    simp [callbacks]
  · rw [gstc_bus_thread_trace, callbacks_append, gstc_cmd_read_callbacks]
    simp [callbacks]

/-- C10: `gstc_pipeline_bus_wait_async` returns `GSTC_OK` for every input, every transport
and every decoder, so whatever its two setup dispatches returned; and
`gstc_pipeline_bus_wait`, given enough fuel for the workers already pending and its own,
returns, and what it returns is the status of its `gstc_pipeline_bus_wait_async` call,
`GSTC_OK`. -/
theorem gstc_pipeline_bus_wait_async_returns_ok (env : Env σ) (client : Option GstClient)
    (pipeline_name message_name : Option String) (timeout : Int)
    (callback : GstcPipelineBusWaitCallback) (user_data addr k : Nat) (w : World σ) :
    (gstc_pipeline_bus_wait_async env client pipeline_name message_name timeout callback
        user_data w).1 = GSTC_OK ∧
      ∃ w1, gstc_pipeline_bus_wait env (w.threads.length + 2 + k) addr client pipeline_name
          message_name timeout w =
        some ((gstc_pipeline_bus_wait_async env client pipeline_name message_name timeout
          GstcPipelineBusWaitCallback.gstc_pipeline_bus_wait_callback addr
          { w with waiting := fun a => if a = addr then 1 else w.waiting a }).1, w1) ∧
        (gstc_pipeline_bus_wait_async env client pipeline_name message_name timeout
          GstcPipelineBusWaitCallback.gstc_pipeline_bus_wait_callback addr
          { w with waiting := fun a => if a = addr then 1 else w.waiting a }).1 = GSTC_OK := by
  refine ⟨rfl, ?_⟩
  obtain ⟨w1, h1⟩ := gstc_pipeline_bus_wait_returns env (w.threads.length + 2 + k) addr
    client pipeline_name message_name timeout w (by omega)
  exact ⟨w1, h1, rfl⟩

/-- C12: with a client and a pipeline name `n` present, `gstc_pipeline_delete` hands
exactly one request to the transport, `delete /pipelines <n>`, and its result, status
included, is the result of that dispatch through `gstc_cmd_send`. -/
theorem gstc_pipeline_delete_sends_one_request (env : Env σ) (cl : GstClient) (n : String)
    (w : World σ) :
    sends (gstc_pipeline_delete env (some cl) (some n) w).2.trace =
        sends w.trace ++ [(cl.socket, "delete /pipelines " ++ n)] ∧
      (gstc_pipeline_delete env (some cl) (some n) w).1 =
        (gstc_cmd_send env (some cl) (some ("delete /pipelines " ++ n)) w).1 := by
  rw [gstc_pipeline_delete_eq, gstc_cmd_send_sends]
  exact ⟨rfl, rfl⟩

/-- C13: with a client and a pipeline name `n` present, `gstc_pipeline_inject_eos` hands
exactly one request to the transport, `create /pipelines/<n>/event eos` (for `pipe`:
`create /pipelines/pipe/event eos`), and its status is the status of that dispatch
through `gstc_cmd_send`. -/
theorem gstc_pipeline_inject_eos_sends_one_request (env : Env σ) (cl : GstClient)
    (n : String) (w : World σ) :
    sends (gstc_pipeline_inject_eos env (some cl) (some n) w).2.trace =
        sends w.trace ++ [(cl.socket, "create /pipelines/" ++ n ++ "/event eos")] ∧
      (gstc_pipeline_inject_eos env (some cl) (some n) w).1 =
        (gstc_cmd_send env (some cl) (some ("create /pipelines/" ++ n ++ "/event eos")) w).1 ∧
      sends (gstc_pipeline_inject_eos env (some cl) (some "pipe") w).2.trace =
        sends w.trace ++ [(cl.socket, "create /pipelines/pipe/event eos")] := by
  refine ⟨?_, ?_, ?_⟩
  · rw [gstc_pipeline_inject_eos_eq, gstc_cmd_send_sends]
  · rw [gstc_pipeline_inject_eos_eq]
  · rw [gstc_pipeline_inject_eos_eq, gstc_cmd_send_sends]
    rfl

/-- C14: with a client, a pipeline name `p`, an element name `e`, a property name `q`
present and the formatted value `v`, `gstc_element_set` hands exactly one request to the
transport: `update /pipelines/<p>/elements/<e>/properties/<q> <v>`. -/
theorem gstc_element_set_sends_one_request (env : Env σ) (cl : GstClient)
    (p e q v : String) (w : World σ) :
    sends (gstc_element_set env (some cl) (some p) (some e) (some q) v w).2.trace =
      sends w.trace ++
        [(cl.socket, "update /pipelines/" ++ p ++ "/elements/" ++ e ++ "/properties/" ++ q ++
          " " ++ v)] := by
  rw [gstc_element_set_eq, gstc_cmd_send_sends]

/-- C15 fails as stated: the transport reports the error `-2` after it has left the
buffer `r` in the response pointer; `gstc_cmd_send` returns `-2` and has released
nothing, the send is the only event. -/
theorem gstc_cmd_send_error_keeps_response :
    (mockEnv (-2) (some "r") 0 0).gstc_socket_send client0.socket "read /" world0.sock =
        (-2, some "r", ["read /"]) ∧
      gstc_cmd_send (mockEnv (-2) (some "r") 0 0) (some client0) (some "read /") world0 =
        (-2, { world0 with sock := ["read /"],
                           trace := [Event.send client0.socket "read /"] }) ∧
      frees (gstc_cmd_send (mockEnv (-2) (some "r") 0 0) (some client0) (some "read /")
        world0).2.trace = [] := by
  refine ⟨rfl, rfl, rfl⟩

/-- C15, amended: on every exit path of `gstc_cmd_send` reached after the transport
reported success, the pointer the transport left in `response` is handed to `free` exactly
once, as the last event before the return: after the decoder call when there is a buffer
(whether the decoder succeeds or fails), and as `free (NULL)` when there is none. -/
theorem gstc_cmd_send_releases_response (env : Env σ) (cl : GstClient) (req : String)
    (w : World σ) (response : Option String) (s : σ)
    (hs : env.gstc_socket_send cl.socket req w.sock = (GSTC_OK, response, s)) :
    frees (gstc_cmd_send env (some cl) (some req) w).2.trace = frees w.trace ++ [response] ∧
      (gstc_cmd_send env (some cl) (some req) w).2.trace =
        w.trace ++ Event.send cl.socket req ::
          decodeEvents response := by
  have ht : (gstc_cmd_send env (some cl) (some req) w).2.trace =
      w.trace ++ Event.send cl.socket req ::
        decodeEvents response := by
    rw [gstc_cmd_send_trace, hs]
    simp
  refine ⟨?_, ht⟩
  rw [ht, frees_append]
  cases response <;> simp [frees, decodeEvents]

/-- Witness of C15, amended: with a transport that leaves the buffer `r` and a decoder
that fails with `-6`, `gstc_cmd_send` frees `r` once, after the decoder call. -/
theorem gstc_cmd_send_releases_response_witness :
    frees (gstc_cmd_send (mockEnv 0 (some "r") (-6) 0) (some client0) (some "read /")
        world0).2.trace = [some "r"] ∧
      (gstc_cmd_send (mockEnv 0 (some "r") (-6) 0) (some client0) (some "read /")
        world0).2.trace =
        [Event.send client0.socket "read /", Event.decode "r" "code",
          Event.free (some "r")] :=
  gstc_cmd_send_releases_response (mockEnv 0 (some "r") (-6) 0) client0 "read /" world0
    (some "r") ["read /"] rfl

/-- C16: `gstc_client_new` called with a null address or a null `out` returns
`GSTC_NULL_ARGUMENT` and does nothing else (no allocation, no transport constructor call).
With both present: when `malloc` fails it returns `GSTC_OOM`, `out` holds `NULL` and the
constructor is not called; when the constructor reports `e` other than `GSTC_OK` it
returns `e`, the block is freed and `out` holds `NULL`; when the constructor reports
`GSTC_OK` it returns `GSTC_OK` and `out` holds the new client.  Hence, `GSTC_OOM` being
different from `GSTC_OK`, it returns `GSTC_OK` exactly when `out` holds a non-null
handle. -/
theorem gstc_client_new_outcomes (env : Env σ)
    (gstc_socket_new : String → Nat → Nat → Int → σ → GstcStatus × GstcSocket × σ)
    (port wait_time : Nat) (keep_connection_open : Int) (w : World σ)
    (hoom : env.GSTC_OOM ≠ GSTC_OK) :
    (∀ (malloc_ok : Bool) (address : Option String) (out : Option (Option GstClient)),
        address = none ∨ out = none →
        gstc_client_new env gstc_socket_new malloc_ok address port wait_time
          keep_connection_open out w = (env.GSTC_NULL_ARGUMENT, out, w)) ∧
      (∀ (address : String) (old : Option GstClient),
        gstc_client_new env gstc_socket_new false (some address) port wait_time
          keep_connection_open (some old) w =
          (env.GSTC_OOM, some none, w.log (Event.malloc_client false))) ∧
      (∀ (address : String) (old : Option GstClient) (e : GstcStatus) (sk : GstcSocket)
          (s : σ),
        gstc_socket_new address port wait_time keep_connection_open w.sock = (e, sk, s) →
        e ≠ GSTC_OK →
        gstc_client_new env gstc_socket_new true (some address) port wait_time
          keep_connection_open (some old) w =
          (e, some none,
            { w with sock := s,
                     trace := w.trace ++ [Event.malloc_client true,
                       Event.socket_new address port wait_time keep_connection_open,
                       Event.free_client { socket := sk }] })) ∧
      (∀ (address : String) (old : Option GstClient) (sk : GstcSocket) (s : σ),
        gstc_socket_new address port wait_time keep_connection_open w.sock =
          (GSTC_OK, sk, s) →
        gstc_client_new env gstc_socket_new true (some address) port wait_time
          keep_connection_open (some old) w =
          (GSTC_OK, some (some { socket := sk }),
            { w with sock := s,
                     trace := w.trace ++ [Event.malloc_client true,
                       Event.socket_new address port wait_time keep_connection_open] })) ∧
      (∀ (malloc_ok : Bool) (address : String) (old : Option GstClient),
        (gstc_client_new env gstc_socket_new malloc_ok (some address) port wait_time
          keep_connection_open (some old) w).1 = GSTC_OK ↔
        ∃ client, (gstc_client_new env gstc_socket_new malloc_ok (some address) port
          wait_time keep_connection_open (some old) w).2.1 = some (some client)) := by
  refine ⟨?_, ?_, ?_, ?_, ?_⟩
  · intro malloc_ok address out h
    cases address <;> cases out <;> simp_all [gstc_client_new]
  · intro address old
    simp [gstc_client_new]
  · intro address old e sk s hsn he
    have hne : ¬ (GSTC_OK = e) := fun hh => he hh.symm
    simp [gstc_client_new, World.log, hsn, hne]
  · intro address old sk s hsn
    simp [gstc_client_new, World.log, hsn]
  · intro malloc_ok address old
    cases malloc_ok with
    | false =>
      simp [gstc_client_new, hoom]
    | true =>
      by_cases hr : GSTC_OK =
          (gstc_socket_new address port wait_time keep_connection_open w.sock).1
      · simp [gstc_client_new, World.log, ← hr]
      · have hr2 : ¬ ((gstc_socket_new address port wait_time keep_connection_open
            w.sock).1 = GSTC_OK) := fun hh => hr hh.symm
        simp [gstc_client_new, World.log, hr, hr2]

/-- Witness of C16: with the status constants of the mock environment (`GSTC_OOM` is
`-4`), a constructor that reports `-10` makes `gstc_client_new` return `-10` with `NULL`
in `out` and the block freed. -/
theorem gstc_client_new_outcomes_witness :
    (mockEnv 0 none 0 0).GSTC_OOM ≠ GSTC_OK ∧
      gstc_client_new (mockEnv 0 none 0 0) (mockSocketNew (-10) 3) true (some "localhost")
          5000 0 0 (some (some client0)) world0 =
        (-10, some none,
          { world0 with
            sock := [],
            trace := world0.trace ++ [Event.malloc_client true,
              Event.socket_new "localhost" 5000 0 0,
              Event.free_client { socket := { handle := 3 } }] }) :=
  ⟨by decide,
    (gstc_client_new_outcomes (mockEnv 0 none 0 0) (mockSocketNew (-10) 3) 5000 0 0 world0
      (by decide)).2.2.1 "localhost" (some client0) (-10) { handle := 3 } [] rfl
      (by decide)⟩

/-- C17: the code at the failing input.  The transport of the test suite records the
request, reports success and leaves the response pointer `NULL`; `gstc_pipeline_create`
on `pipe` and `fakesrc ! fakesink` then returns `GSTC_NULL_ARGUMENT`, which is not
`GSTC_OK`, although the request it sent is the expected one. -/
theorem gstc_pipeline_create_without_response :
    (mockEnv 0 none 0 0).gstc_socket_send client0.socket
        "create /pipelines pipe fakesrc ! fakesink" world0.sock =
        (GSTC_OK, none, ["create /pipelines pipe fakesrc ! fakesink"]) ∧
      (gstc_pipeline_create (mockEnv 0 none 0 0) (some client0) (some "pipe")
        (some "fakesrc ! fakesink") world0).1 = (mockEnv 0 none 0 0).GSTC_NULL_ARGUMENT ∧
      (gstc_pipeline_create (mockEnv 0 none 0 0) (some client0) (some "pipe")
        (some "fakesrc ! fakesink") world0).1 ≠ GSTC_OK ∧
      (gstc_pipeline_create (mockEnv 0 none 0 0) (some client0) (some "pipe")
        (some "fakesrc ! fakesink") world0).2.sock =
        ["create /pipelines pipe fakesrc ! fakesink"] := by
  decide

/-- C18: for pipeline names without a space character the request that
`gstc_pipeline_create` sends determines the name and the description: two calls that send
the same request were given the same pair.  Without the condition on the names this
fails: the pairs (`a`, `b c`) and (`a b`, `c`) are different and send the same request. -/
theorem gstc_pipeline_create_request_injective (env : Env σ) (cl : GstClient) (w : World σ) :
    (∀ n1 n2 d1 d2 : String, ' ' ∉ n1.data → ' ' ∉ n2.data →
        sends (gstc_pipeline_create env (some cl) (some n1) (some d1) w).2.trace =
          sends (gstc_pipeline_create env (some cl) (some n2) (some d2) w).2.trace →
        n1 = n2 ∧ d1 = d2) ∧
      (sends (gstc_pipeline_create env (some cl) (some "a") (some "b c") w).2.trace =
          sends (gstc_pipeline_create env (some cl) (some "a b") (some "c") w).2.trace ∧
        (("a", "b c") : String × String) ≠ ("a b", "c")) := by
  constructor
  · intro n1 n2 d1 d2 h1 h2 h
    rw [gstc_pipeline_create_eq, gstc_pipeline_create_eq, gstc_cmd_send_sends,
      gstc_cmd_send_sends] at h
    have hreq : "create /pipelines " ++ n1 ++ " " ++ d1 =
        "create /pipelines " ++ n2 ++ " " ++ d2 := by
      have := List.append_cancel_left h
      simpa using this
    rw [String.append_assoc, String.append_assoc, String.append_assoc,
      String.append_assoc] at hreq
    have hrest := string_append_left_cancel _ _ _ hreq
    rw [← String.append_assoc, ← String.append_assoc] at hrest
    exact name_space_desc_injective n1 n2 d1 d2 h1 h2 hrest
  · refine ⟨?_, by decide⟩
    rw [gstc_pipeline_create_eq, gstc_pipeline_create_eq]
    rfl

/-- Witness of C18: `pipe` contains no space; the call on (`pipe`, `fakesrc ! fakesink`)
sends the same request as itself, and the pair is recovered. -/
theorem gstc_pipeline_create_request_injective_witness :
    ' ' ∉ "pipe".data ∧
      sends (gstc_pipeline_create (mockEnv 0 (some "r") 0 0) (some client0) (some "pipe")
          (some "fakesrc ! fakesink") world0).2.trace =
        sends (gstc_pipeline_create (mockEnv 0 (some "r") 0 0) (some client0) (some "pipe")
          (some "fakesrc ! fakesink") world0).2.trace ∧
      ("pipe" = "pipe" ∧ "fakesrc ! fakesink" = "fakesrc ! fakesink") :=
  ⟨by decide, rfl,
    (gstc_pipeline_create_request_injective (mockEnv 0 (some "r") 0 0) client0 world0).1
      "pipe" "pipe" "fakesrc ! fakesink" "fakesrc ! fakesink" (by decide) (by decide) rfl⟩

end Libgstc
